import Mathlib

/-!
Verification of the type-to-PropTypes conversion engine
(`src/convertToPropTypes.ts`).

The Babel AST fragments that the engine consumes and produces are shallowly
embedded as inductive types below.  Every function mirrors the corresponding
function of the source file; names are kept where Lean allows it.
-/

set_option maxHeartbeats 1600000

/-- Output expression nodes (the subset of the Babel expression AST that the
engine produces or passes through: identifiers, member accesses, calls,
array and object literals, and the literal nodes carried by literal types).
An object literal is a list of `(key, value)` property pairs, as built by
`t.objectProperty`. -/
inductive Expr where
  | identifier (name : String)
  | memberExpression (object : Expr) (property : Expr)
  | callExpression (callee : Expr) (args : List Expr)
  | arrayExpression (elements : List Expr)
  | objectExpression (properties : List (Expr × Expr))
  | stringLiteral (value : String)
  | numericLiteral (value : Int)
  | booleanLiteral (value : Bool)
deriving Repr

/-- The `PropType` alias of the source (`src/types.ts` exposes it as a union of
expression node kinds); all of them are `Expr` here. -/
abbrev PropType := Expr

/-- Source: `t.objectProperty(key, value)` — an entry of a generated shape
object, keyed by the original key node. -/
def objectProperty (key value : Expr) : Expr × Expr := (key, value)

/-- Source: `createMember(value) = t.memberExpression(t.identifier('PropTypes'), value)`. -/
def createMember (value : Expr) : Expr :=
  Expr.memberExpression (Expr.identifier "PropTypes") value

/-- Source: `createCall(value, args) = t.callExpression(createMember(value), args)`. -/
def createCall (value : Expr) (args : List Expr) : Expr :=
  Expr.callExpression (createMember value) args

/-- Source: `isReactTypeMatch(name, type, reactImportedName)` — a name matches a
framework type `type` if it equals it literally, or with a `React.` qualifier,
or with the locally imported alias as qualifier. -/
def isReactTypeMatch (name type reactImportedName : String) : Bool :=
  name == type || name == "React." ++ type || name == reactImportedName ++ "." ++ type

/-- Source: `wrapIsRequired(propType, optional)` — a truthy `optional` flag
returns the validator unchanged, otherwise (`false`, `null` or absent, all
modelled by `some false` / `none`) the validator is wrapped in a member access
`.isRequired`. -/
def wrapIsRequired (propType : PropType) (optional : Option Bool) : PropType :=
  match optional with
  | some true => propType
  | _ => Expr.memberExpression propType (Expr.identifier "isRequired")

/-- Models JavaScript `String#endsWith`: the given suffix closes the string. -/
def endsWithStr (s suffix : String) : Bool :=
  suffix.data.isSuffixOf s.data

/-- Modelled from the spec: the external name-resolution collaborator
(`getTypeName`, `src/getTypeName.ts`, not part of the core) flattens a possibly
qualified type-reference name into its dotted string form.  Type-reference
names are carried here already in that flattened dotted form, so the
resolution step is the identity on them. -/
def getTypeName (typeName : String) : String := typeName

mutual
/-- The TypeScript type nodes the engine inspects.  `otherType` is the open
case for every node kind the source never matches (it falls through to
`return null`). `literalType` carries the literal expression node of a
`TSLiteralType`, passed through verbatim by the union rule. -/
inductive TSType where
  | stringKeyword
  | numberKeyword
  | booleanKeyword
  | symbolKeyword
  | functionType
  | typeReference (typeName : String) (typeArguments : List TSType)
  | arrayType (elementType : TSType)
  | typeLiteral (members : List TSMember)
  | unionType (types : List TSType)
  | intersectionType (types : List TSType)
  | parenthesizedType (typeAnnot : TSType)
  | literalType (literal : Expr)
  | otherType
/-- `TSPropertySignature{key, typeAnnotation, optional}`.  The source only ever
reads `property.typeAnnotation.typeAnnotation`, guarded by a null check on the
outer annotation; the two levels collapse into one `Option`.  `optional` is
`boolean | null | undefined`, hence `Option Bool`. -/
inductive TSPropertySignature where
  | mk (key : Expr) (typeAnnot : Option TSType) (optional : Option Bool)
/-- A member of a `TSTypeLiteral`: a property signature, an index signature
(whose value-type annotation may be missing, matching the
`index.typeAnnotation && index.typeAnnotation.typeAnnotation` guard), or any
other `TSTypeElement` kind. -/
inductive TSMember where
  | propertySignature (sig : TSPropertySignature)
  | indexSignature (typeAnnot : Option TSType)
  | otherMember
end

def TSPropertySignature.key : TSPropertySignature → Expr
  | .mk k _ _ => k

def TSPropertySignature.typeAnnot : TSPropertySignature → Option TSType
  | .mk _ a _ => a

def TSPropertySignature.optional : TSPropertySignature → Option Bool
  | .mk _ _ o => o

/-- Babel predicate `t.isTSParenthesizedType`. -/
def isTSParenthesizedType : TSType → Bool
  | .parenthesizedType _ => true
  | _ => false

/-- Babel predicate `t.isTSLiteralType`. -/
def isTSLiteralType : TSType → Bool
  | .literalType _ => true
  | _ => false

/-- Babel predicate `t.isTSPropertySignature`. -/
def isTSPropertySignature : TSMember → Bool
  | .propertySignature _ => true
  | _ => false

/-- Babel predicate `t.isTSIndexSignature`. -/
def isTSIndexSignature : TSMember → Bool
  | .indexSignature _ => true
  | _ => false

/-- Source: `type.members.filter(member => t.isTSPropertySignature(member)) as
t.TSPropertySignature[]` — the filter plus the unchecked cast. -/
def filterPropertySignatures (members : List TSMember) : List TSPropertySignature :=
  members.filterMap fun m =>
    match m with
    | .propertySignature s => some s
    | _ => none

/-- Source: `(param as TSLiteralType).literal` — an unchecked cast; the default
arm is unreachable under the `isAllLiterals` guard the source checks first. -/
def literalOf : TSType → Expr
  | .literalType l => l
  | _ => Expr.identifier "undefined"

theorem sumSize_le (l : List TSType) : (l.map sizeOf).sum + l.length ≤ sizeOf l := by
  induction l with
  | nil => simp
  | cons t ts ih => simp at *; omega

theorem filterProps_measure (ms : List TSMember) :
    3 * ((filterPropertySignatures ms).map sizeOf).sum
      + (filterPropertySignatures ms).length ≤ 3 * sizeOf ms := by
  induction ms with
  | nil => simp [filterPropertySignatures]
  | cons m rest ih =>
    cases m with
    | propertySignature s =>
      simp [filterPropertySignatures, List.filterMap_cons] at *
      omega
    | indexSignature a =>
      simp [filterPropertySignatures, List.filterMap_cons] at *
      omega
    | otherMember =>
      simp [filterPropertySignatures, List.filterMap_cons] at *
      omega

mutual
/-- Source: `convert(type, reactImportedName)` — first removes one level of
wrapping parens, then dispatches on the node kind (the dispatch body is
`convertBody`). -/
def convert : TSType → String → Option PropType
  | .parenthesizedType inner, reactImportedName => convertBody inner reactImportedName
  | type, reactImportedName => convertBody type reactImportedName
termination_by t _ => 3 * sizeOf t + 2
decreasing_by
  all_goals simp_wf
  all_goals omega

/-- The dispatch chain of `convert` after the one-shot paren strip.  Every
branch mirrors the corresponding `if`/`else if` of the source; the final
catch-all is the source's trailing `return null`. -/
def convertBody : TSType → String → Option PropType
  | .stringKeyword, _ => some (createMember (Expr.identifier "string"))
  | .numberKeyword, _ => some (createMember (Expr.identifier "number"))
  | .booleanKeyword, _ => some (createMember (Expr.identifier "bool"))
  | .symbolKeyword, _ => some (createMember (Expr.identifier "symbol"))
  | .functionType, _ => some (createMember (Expr.identifier "func"))
  | .typeReference typeName _, reactImportedName =>
    let name := getTypeName typeName
    if isReactTypeMatch name "ReactText" reactImportedName
        || isReactTypeMatch name "ReactNode" reactImportedName
        || isReactTypeMatch name "ReactType" reactImportedName
        || isReactTypeMatch name "ComponentType" reactImportedName
        || isReactTypeMatch name "ComponentClass" reactImportedName
        || isReactTypeMatch name "StatelessComponent" reactImportedName then
      some (createMember (Expr.identifier "node"))
    else if isReactTypeMatch name "Element" "JSX"
        || isReactTypeMatch name "ReactElement" reactImportedName
        || isReactTypeMatch name "SFCElement" reactImportedName then
      some (createMember (Expr.identifier "element"))
    else if isReactTypeMatch name "Ref" reactImportedName then
      some (createCall (Expr.identifier "oneOfType")
        [Expr.arrayExpression
          [createMember (Expr.identifier "string"),
           createMember (Expr.identifier "func"),
           createMember (Expr.identifier "object")]])
    else if endsWithStr name "Handler" then
      some (createMember (Expr.identifier "func"))
    else if endsWithStr name "Event" then
      some (createMember (Expr.identifier "object"))
    else
      none
  | .arrayType elementType, reactImportedName =>
    let args := convertArray [elementType] reactImportedName
    if args.length > 0 then
      some (createCall (Expr.identifier "arrayOf") args)
    else
      some (createMember (Expr.identifier "array"))
  | .typeLiteral members, reactImportedName =>
    match members with
    | [] => some (createMember (Expr.identifier "object"))
    | [TSMember.indexSignature ann] =>
      -- `members.length === 1 && t.isTSIndexSignature(members[0])`; on a
      -- missing or unconvertible value type the source falls through to the
      -- trailing `return null`, never into the shape branch.
      match ann with
      | some valueType =>
        match convert valueType reactImportedName with
        | some result => some (createCall (Expr.identifier "objectOf") [result])
        | none => none
      | none => none
    | ms =>
      some (createCall (Expr.identifier "shape")
        [Expr.objectExpression
          (convertListToProps (filterPropertySignatures ms) reactImportedName)])
  | .unionType types, reactImportedName
  | .intersectionType types, reactImportedName =>
    let isAllLiterals := types.all fun param => isTSLiteralType param
    let args :=
      if isAllLiterals then types.map fun param => literalOf param
      else convertArray types reactImportedName
    let label :=
      if isAllLiterals then Expr.identifier "oneOf" else Expr.identifier "oneOfType"
    -- `if (label && args.length > 0)`: `label` is always a truthy identifier.
    if args.length > 0 then
      some (createCall label [Expr.arrayExpression args])
    else
      none
  | _, _ => none
termination_by t _ => 3 * sizeOf t + 1
decreasing_by
  all_goals simp_wf
  all_goals try omega
  · have h := filterProps_measure ms
    omega
  · have h := sumSize_le types
    omega
  · have h := sumSize_le types
    omega

/-- Source: `convertArray(types, reactImportedName)` — converts each type in
order, keeping only the successful conversions. -/
def convertArray : List TSType → String → List PropType
  | [], _ => []
  | type :: rest, reactImportedName =>
    match convert type reactImportedName with
    | some prop => prop :: convertArray rest reactImportedName
    | none => convertArray rest reactImportedName
termination_by l _ => 3 * (l.map sizeOf).sum + l.length + 2
decreasing_by
  all_goals simp_wf
  all_goals omega

/-- Source: `convertListToProps(properties, reactImportedName)` — members with
no type annotation are skipped, members whose annotation fails to classify are
skipped, every other member yields one `objectProperty` keyed by its original
key node and wrapped per its `optional` flag. -/
def convertListToProps : List TSPropertySignature → String → List (Expr × Expr)
  | [], _ => []
  | TSPropertySignature.mk key ann opt :: rest, reactImportedName =>
    match ann with
    | none => convertListToProps rest reactImportedName
    | some ty =>
      match convert ty reactImportedName with
      | some propType =>
        objectProperty key (wrapIsRequired propType opt)
          :: convertListToProps rest reactImportedName
      | none => convertListToProps rest reactImportedName
termination_by l _ => 3 * (l.map sizeOf).sum + l.length + 2
decreasing_by
  all_goals simp_wf
  all_goals omega
end

/-- Source: `convertToPropTypes(types, typeNames, reactImportedName)` — the
entry point; the JS object mapping is modelled as a partial map from type name
to property list, the `if (types[typeName])` presence check as the `Option`
match. -/
def convertToPropTypes (types : String → Option (List TSPropertySignature))
    (typeNames : List String) (reactImportedName : String) : List (Expr × Expr) :=
  match typeNames with
  | [] => []
  | typeName :: rest =>
    (match types typeName with
     | some props => convertListToProps props reactImportedName
     | none => []) ++ convertToPropTypes types rest reactImportedName

/-! ### String facts used to settle the name-matching rules -/

theorem append_ne_append (s t : String)
    (h1 : s.data.reverse.isPrefixOf t.data.reverse = false)
    (h2 : t.data.reverse.isPrefixOf s.data.reverse = false)
    (A B : String) : A ++ s ≠ B ++ t := by
  intro heq
  have hd : A.data ++ s.data = B.data ++ t.data := by
    simpa [String.data_append] using congrArg String.data heq
  have hr : s.data.reverse ++ A.data.reverse = t.data.reverse ++ B.data.reverse := by
    simpa [List.reverse_append] using congrArg List.reverse hd
  rcases List.append_eq_append_iff.mp hr with ⟨k, hk, _⟩ | ⟨k, hk, _⟩
  · have hp : s.data.reverse <+: t.data.reverse := ⟨k, hk.symm⟩
    rw [← List.isPrefixOf_iff_prefix] at hp
    simp [h1] at hp
  · have hp : t.data.reverse <+: s.data.reverse := ⟨k, hk.symm⟩
    rw [← List.isPrefixOf_iff_prefix] at hp
    simp [h2] at hp

theorem append_ne_lit (s t : String)
    (h : s.data.reverse.isPrefixOf t.data.reverse = false)
    (A : String) : A ++ s ≠ t := by
  intro heq
  have hd : A.data ++ s.data = t.data := by
    simpa [String.data_append] using congrArg String.data heq
  have hr : s.data.reverse ++ A.data.reverse = t.data.reverse := by
    simpa [List.reverse_append] using congrArg List.reverse hd
  have hp : s.data.reverse <+: t.data.reverse := ⟨A.data.reverse, hr⟩
  rw [← List.isPrefixOf_iff_prefix] at hp
  simp [h] at hp

theorem lit_ne_append (s t : String)
    (h : t.data.reverse.isPrefixOf s.data.reverse = false)
    (B : String) : s ≠ B ++ t :=
  fun heq => append_ne_lit t s h B heq.symm

theorem append_right_cancel_str {A B s : String} (h : A ++ s = B ++ s) : A = B := by
  have hd : A.data ++ s.data = B.data ++ s.data := by
    simpa [String.data_append] using congrArg String.data h
  exact String.ext (List.append_inj' hd rfl).1

theorem append_lit_split (A : String) {s t u : String} (h : t ++ u = s) :
    A ++ s = (A ++ t) ++ u := by
  rw [← h, ← String.append_assoc]

theorem endsWithStr_append_false (A s t : String)
    (hlen : t.data.length ≤ s.data.length)
    (h : endsWithStr s t = false) : endsWithStr (A ++ s) t = false := by
  by_contra hc
  rw [Bool.not_eq_false] at hc
  simp only [endsWithStr] at hc h
  have hsuf : t.data <:+ A.data ++ s.data := by
    have := List.isSuffixOf_iff_suffix.mp hc
    rwa [String.data_append] at this
  have hpre : t.data.reverse <+: s.data.reverse ++ A.data.reverse := by
    have := List.reverse_prefix.mpr hsuf
    simpa [List.reverse_append] using this
  have heq : t.data.reverse
      = (s.data.reverse ++ A.data.reverse).take t.data.reverse.length :=
    List.prefix_iff_eq_take.mp hpre
  have hlen2 : t.data.reverse.length ≤ s.data.reverse.length := by simpa using hlen
  rw [List.take_append_of_le_length hlen2] at heq
  have hps : t.data.reverse <+: s.data.reverse := by
    rw [heq]
    exact ⟨s.data.reverse.drop t.data.reverse.length, List.take_append_drop _ _⟩
  have hts : t.data <:+ s.data := List.reverse_prefix.mp hps
  rw [← List.isSuffixOf_iff_suffix] at hts
  simp [h] at hts

theorem isReactTypeMatch_false {name T r : String}
    (h1 : name ≠ T) (h2 : name ≠ "React." ++ T) (h3 : name ≠ r ++ "." ++ T) :
    isReactTypeMatch name T r = false := by
  simp only [isReactTypeMatch, Bool.or_eq_false_iff, beq_eq_false_iff_ne, ne_eq]
  exact ⟨⟨h1, h2⟩, h3⟩

/-! ### Claim theorems -/

/-- C4: `wrapIsRequired` returns the validator unchanged when `optional` is
`true`, and wraps it in member access `.isRequired` when `optional` is `false`
or absent/nullish; the underlying validator in the result is `v` itself and
the function is total. -/
theorem wrapIsRequired_spec (v : PropType) :
    wrapIsRequired v (some true) = v
    ∧ wrapIsRequired v (some false) = Expr.memberExpression v (Expr.identifier "isRequired")
    ∧ wrapIsRequired v none = Expr.memberExpression v (Expr.identifier "isRequired") :=
  ⟨rfl, rfl, rfl⟩

/-- C1 (counterexample): a `TypeLiteral` whose single member is an index
signature without a typed value converts to `none`; in particular the claimed
`shape({...})` call (over the empty filtered property list) is not produced. -/
theorem convert_untypedIndexSignature_counterexample :
    convert (TSType.typeLiteral [TSMember.indexSignature none]) "React" = none
    ∧ convert (TSType.typeLiteral [TSMember.indexSignature none]) "React"
      ≠ some (createCall (Expr.identifier "shape")
          [Expr.objectExpression
            (convertListToProps
              (filterPropertySignatures [TSMember.indexSignature none]) "React")]) := by
  constructor
  · simp [convert, convertBody]
  · simp [convert, convertBody]

/-- C1 (amended): for every `TypeLiteral` whose single member is an index
signature lacking a typed value, `convert` enters the single-index-signature
branch (which tests only `isTSIndexSignature`, not the presence of a typed
value) and returns `null` — it never reaches the shape rule. -/
theorem convert_untypedIndexSignature_null (r : String) :
    convert (TSType.typeLiteral [TSMember.indexSignature none]) r = none := by
  simp [convert, convertBody]

/-- C2: for every element type `E` and namespace alias: if `convert E` yields
`V`, converting the array of `E` yields `arrayOf(V)`; if `convert E` yields
nothing, it yields the bare `array` validator; the array conversion never
returns `null`. -/
theorem convert_arrayType_spec (E : TSType) (r : String) :
    (∀ V, convert E r = some V →
      convert (TSType.arrayType E) r
        = some (createCall (Expr.identifier "arrayOf") [V]))
    ∧ (convert E r = none →
      convert (TSType.arrayType E) r = some (createMember (Expr.identifier "array")))
    ∧ convert (TSType.arrayType E) r ≠ none := by
  cases h : convert E r with
  | some V =>
    have harr : convert (TSType.arrayType E) r
        = some (createCall (Expr.identifier "arrayOf") [V]) := by
      simp [convert, convertBody, convertArray, h]
    refine ⟨?_, ?_, ?_⟩
    · intro W hW
      cases hW
      exact harr
    · intro hn
      cases hn
    · rw [harr]
      simp
  | none =>
    have harr : convert (TSType.arrayType E) r
        = some (createMember (Expr.identifier "array")) := by
      simp [convert, convertBody, convertArray, h]
    refine ⟨?_, ?_, ?_⟩
    · intro W hW
      cases hW
    · intro _
      exact harr
    · rw [harr]
      simp

/-- C2 witness: the theorem applied at `string[]` (element converts) and at an
array of an unhandled type (element conversion fails). -/
theorem convert_arrayType_spec_witness :
    convert (TSType.arrayType TSType.stringKeyword) "React"
      = some (createCall (Expr.identifier "arrayOf") [createMember (Expr.identifier "string")])
    ∧ convert (TSType.arrayType TSType.otherType) "React"
      = some (createMember (Expr.identifier "array")) :=
  ⟨(convert_arrayType_spec TSType.stringKeyword "React").1 _ (by simp [convert, convertBody]),
   (convert_arrayType_spec TSType.otherType "React").2.1 (by simp [convert, convertBody])⟩

/-- C9: a single `convert` call strips exactly one level of parenthesization:
on `Paren(T)` with `T` itself not parenthesized it classifies `T` exactly as a
direct call would, while on `Paren(Paren(T))` the remaining parenthesized node
matches no rule and the call returns `null`. -/
theorem convert_paren_spec (T : TSType) (r : String) :
    (isTSParenthesizedType T = false →
      convert (TSType.parenthesizedType T) r = convert T r)
    ∧ convert (TSType.parenthesizedType (TSType.parenthesizedType T)) r = none := by
  constructor
  · intro h
    cases T <;> simp_all [isTSParenthesizedType] <;> simp [convert]
  · simp [convert, convertBody]

/-- C9 witness: the theorem applied at `T = string`. -/
theorem convert_paren_spec_witness :
    convert (TSType.parenthesizedType TSType.stringKeyword) "React"
      = convert TSType.stringKeyword "React" :=
  (convert_paren_spec TSType.stringKeyword "React").1 rfl

/-- Helper for C3: `convertArray` keeps exactly the members that individually
convert, in their original order. -/
theorem convertArray_eq_filterMap (ts : List TSType) (r : String) :
    convertArray ts r = ts.filterMap fun t => convert t r := by
  induction ts with
  | nil => simp [convertArray]
  | cons t rest ih =>
    cases h : convert t r <;> simp [convertArray, h, ih]

/-- Helper for C3: the union and the intersection constructor, selected by a
flag, share one conversion rule in the source. -/
def mkUnionLike (u : Bool) (ts : List TSType) : TSType :=
  if u then TSType.unionType ts else TSType.intersectionType ts

/-- C8: `convertToPropTypes` concatenates, in the order the names are listed,
the conversion of each listed name's property list, silently skipping names
absent from the mapping; and within one list each member with no annotation or
an unclassifiable annotation contributes nothing, while every other member
contributes exactly one assignment keyed by its original key node, in input
order. -/
theorem convertToPropTypes_spec (types : String → Option (List TSPropertySignature))
    (typeNames : List String) (r : String) :
    convertToPropTypes types typeNames r
      = (typeNames.map fun n =>
          match types n with
          | some props => convertListToProps props r
          | none => []).flatten
    ∧ ∀ props : List TSPropertySignature,
        convertListToProps props r
          = props.flatMap fun p =>
              match p.typeAnnot with
              | none => []
              | some ty =>
                match convert ty r with
                | none => []
                | some v => [objectProperty p.key (wrapIsRequired v p.optional)] := by
  constructor
  · induction typeNames with
    | nil => simp [convertToPropTypes]
    | cons n rest ih => simp [convertToPropTypes, ih]
  · intro props
    induction props with
    | nil => simp [convertListToProps]
    | cons p rest ih =>
      cases p with
      | mk key ann opt =>
        cases ann with
        | none =>
          simp [convertListToProps, TSPropertySignature.typeAnnot, ih]
        | some ty =>
          cases h : convert ty r <;>
            simp [convertListToProps, TSPropertySignature.typeAnnot,
              TSPropertySignature.key, TSPropertySignature.optional, h, ih]

/-- C3 (counterexample): for the union with an empty member list every member
is (vacuously) a literal type, yet `convert` yields `null` instead of a
`oneOf([...])` call, because the emitted argument array is empty. -/
theorem convert_emptyUnion_counterexample :
    (([] : List TSType).all fun p => isTSLiteralType p) = true
    ∧ convert (TSType.unionType []) "React" = none :=
  ⟨rfl, by simp [convert, convertBody]⟩

/-- C3 (amended): for every union or intersection with a nonempty member list:
if every member is a literal type the result is `oneOf([...])` over the
literal values in original order, passed through unconverted; otherwise the
result is `oneOfType([...])` over exactly the members that individually
converted, in original order, or `null` when none did.  A union or
intersection with an empty member list yields `null` (its vacuously true
all-literals check still produces an empty argument array). -/
theorem convert_unionIntersection_spec (u : Bool) (ts : List TSType) (r : String) :
    (ts ≠ [] → (ts.all fun p => isTSLiteralType p) = true →
      convert (mkUnionLike u ts) r
        = some (createCall (Expr.identifier "oneOf")
            [Expr.arrayExpression (ts.map fun p => literalOf p)]))
    ∧ ((ts.all fun p => isTSLiteralType p) = false →
        (ts.filterMap fun t => convert t r) = [] →
        convert (mkUnionLike u ts) r = none)
    ∧ ((ts.all fun p => isTSLiteralType p) = false →
        (ts.filterMap fun t => convert t r) ≠ [] →
        convert (mkUnionLike u ts) r
          = some (createCall (Expr.identifier "oneOfType")
              [Expr.arrayExpression (ts.filterMap fun t => convert t r)]))
    ∧ (ts = [] → convert (mkUnionLike u ts) r = none) := by
  have hbody : convert (mkUnionLike u ts) r = convertBody (mkUnionLike u ts) r := by
    cases u <;> simp [mkUnionLike, convert]
  refine ⟨?_, ?_, ?_, ?_⟩
  · intro hne hall
    rw [hbody]
    cases u <;>
      simp [mkUnionLike, convertBody, hall, List.length_pos, hne]
  · intro hall hempty
    rw [hbody]
    cases u <;>
      simp [mkUnionLike, convertBody, hall, convertArray_eq_filterMap, hempty]
  · intro hall hne
    rw [hbody]
    cases u <;>
      simp [mkUnionLike, convertBody, hall, convertArray_eq_filterMap,
        List.length_pos, hne]
  · intro he
    subst he
    rw [hbody]
    cases u <;> simp [mkUnionLike, convertBody, convertArray]

/-- C3 witness: the amended theorem applied at a two-literal union (all
literals), at a mixed union with one convertible member, at a union whose
single member fails to convert, and at the empty intersection. -/
theorem convert_unionIntersection_spec_witness :
    convert (TSType.unionType
        [TSType.literalType (Expr.stringLiteral "a"),
         TSType.literalType (Expr.stringLiteral "b")]) "React"
      = some (createCall (Expr.identifier "oneOf")
          [Expr.arrayExpression [Expr.stringLiteral "a", Expr.stringLiteral "b"]])
    ∧ convert (TSType.unionType [TSType.stringKeyword, TSType.otherType]) "React"
      = some (createCall (Expr.identifier "oneOfType")
          [Expr.arrayExpression [createMember (Expr.identifier "string")]])
    ∧ convert (TSType.unionType [TSType.otherType]) "React" = none
    ∧ convert (TSType.intersectionType []) "React" = none := by
  refine ⟨?_, ?_, ?_, ?_⟩
  · have h := (convert_unionIntersection_spec true
        [TSType.literalType (Expr.stringLiteral "a"),
         TSType.literalType (Expr.stringLiteral "b")] "React").1
      (by simp) (by simp [isTSLiteralType])
    simpa [mkUnionLike, literalOf] using h
  · have h := (convert_unionIntersection_spec true
        [TSType.stringKeyword, TSType.otherType] "React").2.2.1
      (by simp [isTSLiteralType])
      (by simp [convert, convertBody])
    simpa [mkUnionLike, convert, convertBody] using h
  · have h := (convert_unionIntersection_spec true [TSType.otherType] "React").2.1
      (by simp [isTSLiteralType])
      (by simp [convert, convertBody])
    simpa [mkUnionLike] using h
  · exact (convert_unionIntersection_spec false [] "React").2.2.2 rfl

/-- Helper: when all ten framework-type checks fail, `convert` on a type
reference reduces to the two ordered suffix heuristics. -/
theorem convert_ref_rules (name r : String) (targs : List TSType)
    (h1 : isReactTypeMatch name "ReactText" r = false)
    (h2 : isReactTypeMatch name "ReactNode" r = false)
    (h3 : isReactTypeMatch name "ReactType" r = false)
    (h4 : isReactTypeMatch name "ComponentType" r = false)
    (h5 : isReactTypeMatch name "ComponentClass" r = false)
    (h6 : isReactTypeMatch name "StatelessComponent" r = false)
    (h7 : isReactTypeMatch name "Element" "JSX" = false)
    (h8 : isReactTypeMatch name "ReactElement" r = false)
    (h9 : isReactTypeMatch name "SFCElement" r = false)
    (h10 : isReactTypeMatch name "Ref" r = false) :
    convert (TSType.typeReference name targs) r
      = if endsWithStr name "Handler" then some (createMember (Expr.identifier "func"))
        else if endsWithStr name "Event" then some (createMember (Expr.identifier "object"))
        else none := by
  simp [convert, convertBody, getTypeName, h1, h2, h3, h4, h5, h6, h7, h8, h9, h10]

/-- Helper: a type reference whose name passes one of the six node checks
converts to the `node` validator. -/
theorem convert_ref_node_of (name r : String) (targs : List TSType)
    (h : (isReactTypeMatch name "ReactText" r || isReactTypeMatch name "ReactNode" r
      || isReactTypeMatch name "ReactType" r || isReactTypeMatch name "ComponentType" r
      || isReactTypeMatch name "ComponentClass" r
      || isReactTypeMatch name "StatelessComponent" r) = true) :
    convert (TSType.typeReference name targs) r
      = some (createMember (Expr.identifier "node")) := by
  simp only [convert, convertBody, getTypeName]
  rw [if_pos]
  exact h

/-- Helper: a type reference failing all node checks but passing one of the
three element checks converts to the `element` validator. -/
theorem convert_ref_element_of (name r : String) (targs : List TSType)
    (h1 : isReactTypeMatch name "ReactText" r = false)
    (h2 : isReactTypeMatch name "ReactNode" r = false)
    (h3 : isReactTypeMatch name "ReactType" r = false)
    (h4 : isReactTypeMatch name "ComponentType" r = false)
    (h5 : isReactTypeMatch name "ComponentClass" r = false)
    (h6 : isReactTypeMatch name "StatelessComponent" r = false)
    (h : (isReactTypeMatch name "Element" "JSX" || isReactTypeMatch name "ReactElement" r
      || isReactTypeMatch name "SFCElement" r) = true) :
    convert (TSType.typeReference name targs) r
      = some (createMember (Expr.identifier "element")) := by
  simp [convert, convertBody, getTypeName, h1, h2, h3, h4, h5, h6, h]

/-- Helper: a type reference failing node and element checks but matching
`Ref` converts to the fixed `oneOfType([string, func, object])` call. -/
theorem convert_ref_refBranch_of (name r : String) (targs : List TSType)
    (h1 : isReactTypeMatch name "ReactText" r = false)
    (h2 : isReactTypeMatch name "ReactNode" r = false)
    (h3 : isReactTypeMatch name "ReactType" r = false)
    (h4 : isReactTypeMatch name "ComponentType" r = false)
    (h5 : isReactTypeMatch name "ComponentClass" r = false)
    (h6 : isReactTypeMatch name "StatelessComponent" r = false)
    (h7 : isReactTypeMatch name "Element" "JSX" = false)
    (h8 : isReactTypeMatch name "ReactElement" r = false)
    (h9 : isReactTypeMatch name "SFCElement" r = false)
    (h10 : isReactTypeMatch name "Ref" r = true) :
    convert (TSType.typeReference name targs) r
      = some (createCall (Expr.identifier "oneOfType")
          [Expr.arrayExpression
            [createMember (Expr.identifier "string"),
             createMember (Expr.identifier "func"),
             createMember (Expr.identifier "object")]]) := by
  simp [convert, convertBody, getTypeName, h1, h2, h3, h4, h5, h6, h7, h8, h9, h10]

/-- C7: for a type reference whose resolved name fails all node, element and
`Ref` match rules, `convert` applies the suffix heuristics in order: a name
ending in `Handler` yields `func` (so a name ending in `EventHandler` yields
`func`, the `Handler` rule being checked first), else a name ending in
`Event` yields `object`, else the result is `null`. -/
theorem convert_suffixRules_spec (name r : String) (targs : List TSType)
    (h1 : isReactTypeMatch name "ReactText" r = false)
    (h2 : isReactTypeMatch name "ReactNode" r = false)
    (h3 : isReactTypeMatch name "ReactType" r = false)
    (h4 : isReactTypeMatch name "ComponentType" r = false)
    (h5 : isReactTypeMatch name "ComponentClass" r = false)
    (h6 : isReactTypeMatch name "StatelessComponent" r = false)
    (h7 : isReactTypeMatch name "Element" "JSX" = false)
    (h8 : isReactTypeMatch name "ReactElement" r = false)
    (h9 : isReactTypeMatch name "SFCElement" r = false)
    (h10 : isReactTypeMatch name "Ref" r = false) :
    convert (TSType.typeReference name targs) r
      = if endsWithStr name "Handler" then some (createMember (Expr.identifier "func"))
        else if endsWithStr name "Event" then some (createMember (Expr.identifier "object"))
        else none :=
  convert_ref_rules name r targs h1 h2 h3 h4 h5 h6 h7 h8 h9 h10

/-- C7 witness: the theorem applied at `MouseEventHandler` (whose name ends in
both `EventHandler` and `Handler`, exercising the precedence), at `MouseEvent`
and at an unmatched custom name. -/
theorem convert_suffixRules_spec_witness :
    convert (TSType.typeReference "MouseEventHandler" []) "React"
      = some (createMember (Expr.identifier "func"))
    ∧ convert (TSType.typeReference "MouseEvent" []) "React"
      = some (createMember (Expr.identifier "object"))
    ∧ convert (TSType.typeReference "CustomThing" []) "React" = none := by
  refine ⟨?_, ?_, ?_⟩
  · have h := convert_suffixRules_spec "MouseEventHandler" "React" []
      (by decide) (by decide) (by decide) (by decide) (by decide) (by decide)
      (by decide) (by decide) (by decide) (by decide)
    rw [h]
    simp +decide [endsWithStr]
  · have h := convert_suffixRules_spec "MouseEvent" "React" []
      (by decide) (by decide) (by decide) (by decide) (by decide) (by decide)
      (by decide) (by decide) (by decide) (by decide)
    rw [h]
    simp +decide [endsWithStr]
  · have h := convert_suffixRules_spec "CustomThing" "React" []
      (by decide) (by decide) (by decide) (by decide) (by decide) (by decide)
      (by decide) (by decide) (by decide) (by decide)
    rw [h]
    simp +decide [endsWithStr]

/-- C10: for every configured namespace alias, a type reference named exactly
`Element` or exactly `React.Element` converts to the `element` validator: the
element rule matches against the fixed alias `JSX` with the same
equals-T / equals-React.T / equals-alias.T rule, so it is not restricted to
the qualified name `JSX.Element`. -/
theorem convert_elementName_spec (r : String) (targs : List TSType) :
    convert (TSType.typeReference "Element" targs) r
      = some (createMember (Expr.identifier "element"))
    ∧ convert (TSType.typeReference "React.Element" targs) r
      = some (createMember (Expr.identifier "element")) := by
  constructor
  · exact convert_ref_element_of "Element" r targs
      (isReactTypeMatch_false (by decide) (by decide)
        (lit_ne_append "Element" "ReactText" (by decide) (r ++ ".")))
      (isReactTypeMatch_false (by decide) (by decide)
        (lit_ne_append "Element" "ReactNode" (by decide) (r ++ ".")))
      (isReactTypeMatch_false (by decide) (by decide)
        (lit_ne_append "Element" "ReactType" (by decide) (r ++ ".")))
      (isReactTypeMatch_false (by decide) (by decide)
        (lit_ne_append "Element" "ComponentType" (by decide) (r ++ ".")))
      (isReactTypeMatch_false (by decide) (by decide)
        (lit_ne_append "Element" "ComponentClass" (by decide) (r ++ ".")))
      (isReactTypeMatch_false (by decide) (by decide)
        (lit_ne_append "Element" "StatelessComponent" (by decide) (r ++ ".")))
      (by simp [isReactTypeMatch])
  · exact convert_ref_element_of "React.Element" r targs
      (isReactTypeMatch_false (by decide) (by decide)
        (lit_ne_append "React.Element" "ReactText" (by decide) (r ++ ".")))
      (isReactTypeMatch_false (by decide) (by decide)
        (lit_ne_append "React.Element" "ReactNode" (by decide) (r ++ ".")))
      (isReactTypeMatch_false (by decide) (by decide)
        (lit_ne_append "React.Element" "ReactType" (by decide) (r ++ ".")))
      (isReactTypeMatch_false (by decide) (by decide)
        (lit_ne_append "React.Element" "ComponentType" (by decide) (r ++ ".")))
      (isReactTypeMatch_false (by decide) (by decide)
        (lit_ne_append "React.Element" "ComponentClass" (by decide) (r ++ ".")))
      (isReactTypeMatch_false (by decide) (by decide)
        (lit_ne_append "React.Element" "StatelessComponent" (by decide) (r ++ ".")))
      (by simp +decide [isReactTypeMatch])

/-- C5: for every alias string `A`, a type reference resolved as `A.ReactNode`
converts to the `node` validator when the configured namespace alias is `A`,
and matches no framework rule (the whole conversion yields `null`) when the
configured alias differs from `A` and the name is not also `React.ReactNode`
(i.e. `A` is not `React`); every framework match goes through the same
equals-T / equals-React.T / equals-alias.T rule `isReactTypeMatch`. -/
theorem convert_aliasReactNode_spec (A B : String) (targs : List TSType) :
    convert (TSType.typeReference (A ++ ".ReactNode") targs) A
      = some (createMember (Expr.identifier "node"))
    ∧ (B ≠ A → A ≠ "React" →
        convert (TSType.typeReference (A ++ ".ReactNode") targs) B = none) := by
  constructor
  · apply convert_ref_node_of
    have hsplit : A ++ ".ReactNode" = A ++ "." ++ "ReactNode" :=
      append_lit_split A (by decide)
    have hm : isReactTypeMatch (A ++ ".ReactNode") "ReactNode" A = true := by
      simp [isReactTypeMatch, hsplit]
    simp [hm]
  · intro hBA hAR
    have h1 : isReactTypeMatch (A ++ ".ReactNode") "ReactText" B = false :=
      isReactTypeMatch_false
        (append_ne_lit ".ReactNode" "ReactText" (by decide) A)
        (append_ne_lit ".ReactNode" ("React." ++ "ReactText") (by decide) A)
        (append_ne_append ".ReactNode" "ReactText" (by decide) (by decide) A (B ++ "."))
    have h2 : isReactTypeMatch (A ++ ".ReactNode") "ReactNode" B = false := by
      refine isReactTypeMatch_false
        (append_ne_lit ".ReactNode" "ReactNode" (by decide) A) ?_ ?_
      · intro heq
        rw [show ("React." ++ "ReactNode" : String) = "React" ++ ".ReactNode" from by decide]
          at heq
        exact hAR (append_right_cancel_str heq)
      · intro heq
        rw [← append_lit_split B (show ("." : String) ++ "ReactNode" = ".ReactNode" from by decide)]
          at heq
        exact hBA (append_right_cancel_str heq).symm
    have h3 : isReactTypeMatch (A ++ ".ReactNode") "ReactType" B = false :=
      isReactTypeMatch_false
        (append_ne_lit ".ReactNode" "ReactType" (by decide) A)
        (append_ne_lit ".ReactNode" ("React." ++ "ReactType") (by decide) A)
        (append_ne_append ".ReactNode" "ReactType" (by decide) (by decide) A (B ++ "."))
    have h4 : isReactTypeMatch (A ++ ".ReactNode") "ComponentType" B = false :=
      isReactTypeMatch_false
        (append_ne_lit ".ReactNode" "ComponentType" (by decide) A)
        (append_ne_lit ".ReactNode" ("React." ++ "ComponentType") (by decide) A)
        (append_ne_append ".ReactNode" "ComponentType" (by decide) (by decide) A (B ++ "."))
    have h5 : isReactTypeMatch (A ++ ".ReactNode") "ComponentClass" B = false :=
      isReactTypeMatch_false
        (append_ne_lit ".ReactNode" "ComponentClass" (by decide) A)
        (append_ne_lit ".ReactNode" ("React." ++ "ComponentClass") (by decide) A)
        (append_ne_append ".ReactNode" "ComponentClass" (by decide) (by decide) A (B ++ "."))
    have h6 : isReactTypeMatch (A ++ ".ReactNode") "StatelessComponent" B = false :=
      isReactTypeMatch_false
        (append_ne_lit ".ReactNode" "StatelessComponent" (by decide) A)
        (append_ne_lit ".ReactNode" ("React." ++ "StatelessComponent") (by decide) A)
        (append_ne_append ".ReactNode" "StatelessComponent" (by decide) (by decide) A (B ++ "."))
    have h7 : isReactTypeMatch (A ++ ".ReactNode") "Element" "JSX" = false :=
      isReactTypeMatch_false
        (append_ne_lit ".ReactNode" "Element" (by decide) A)
        (append_ne_lit ".ReactNode" ("React." ++ "Element") (by decide) A)
        (append_ne_lit ".ReactNode" ("JSX" ++ "." ++ "Element") (by decide) A)
    have h8 : isReactTypeMatch (A ++ ".ReactNode") "ReactElement" B = false :=
      isReactTypeMatch_false
        (append_ne_lit ".ReactNode" "ReactElement" (by decide) A)
        (append_ne_lit ".ReactNode" ("React." ++ "ReactElement") (by decide) A)
        (append_ne_append ".ReactNode" "ReactElement" (by decide) (by decide) A (B ++ "."))
    have h9 : isReactTypeMatch (A ++ ".ReactNode") "SFCElement" B = false :=
      isReactTypeMatch_false
        (append_ne_lit ".ReactNode" "SFCElement" (by decide) A)
        (append_ne_lit ".ReactNode" ("React." ++ "SFCElement") (by decide) A)
        (append_ne_append ".ReactNode" "SFCElement" (by decide) (by decide) A (B ++ "."))
    have h10 : isReactTypeMatch (A ++ ".ReactNode") "Ref" B = false :=
      isReactTypeMatch_false
        (append_ne_lit ".ReactNode" "Ref" (by decide) A)
        (append_ne_lit ".ReactNode" ("React." ++ "Ref") (by decide) A)
        (append_ne_append ".ReactNode" "Ref" (by decide) (by decide) A (B ++ "."))
    have e1 : endsWithStr (A ++ ".ReactNode") "Handler" = false :=
      endsWithStr_append_false A ".ReactNode" "Handler" (by decide) (by decide)
    have e2 : endsWithStr (A ++ ".ReactNode") "Event" = false :=
      endsWithStr_append_false A ".ReactNode" "Event" (by decide) (by decide)
    rw [convert_ref_rules (A ++ ".ReactNode") B targs h1 h2 h3 h4 h5 h6 h7 h8 h9 h10,
      e1, e2]
    simp

/-- C5 witness: the theorem applied at alias `MyAlias` with matching and with
differing configured alias. -/
theorem convert_aliasReactNode_spec_witness :
    convert (TSType.typeReference ("MyAlias" ++ ".ReactNode") []) "MyAlias"
      = some (createMember (Expr.identifier "node"))
    ∧ convert (TSType.typeReference ("MyAlias" ++ ".ReactNode") []) "Other" = none :=
  ⟨(convert_aliasReactNode_spec "MyAlias" "Other" []).1,
   (convert_aliasReactNode_spec "MyAlias" "Other" []).2 (by decide) (by decide)⟩

/-- C6: every type reference whose resolved name matches `Ref` under the
framework match rule converts to exactly the fixed call
`oneOfType([string, func, object])`, independent of any type arguments on the
reference. -/
theorem convert_refMatch_spec (name r : String) (targs : List TSType)
    (h : isReactTypeMatch name "Ref" r = true) :
    convert (TSType.typeReference name targs) r
      = some (createCall (Expr.identifier "oneOfType")
          [Expr.arrayExpression
            [createMember (Expr.identifier "string"),
             createMember (Expr.identifier "func"),
             createMember (Expr.identifier "object")]]) := by
  simp only [isReactTypeMatch, Bool.or_eq_true, beq_iff_eq] at h
  rcases h with (h | h) | h
  · subst h
    exact convert_ref_refBranch_of "Ref" r targs
      (isReactTypeMatch_false (by decide) (by decide)
        (lit_ne_append "Ref" "ReactText" (by decide) (r ++ ".")))
      (isReactTypeMatch_false (by decide) (by decide)
        (lit_ne_append "Ref" "ReactNode" (by decide) (r ++ ".")))
      (isReactTypeMatch_false (by decide) (by decide)
        (lit_ne_append "Ref" "ReactType" (by decide) (r ++ ".")))
      (isReactTypeMatch_false (by decide) (by decide)
        (lit_ne_append "Ref" "ComponentType" (by decide) (r ++ ".")))
      (isReactTypeMatch_false (by decide) (by decide)
        (lit_ne_append "Ref" "ComponentClass" (by decide) (r ++ ".")))
      (isReactTypeMatch_false (by decide) (by decide)
        (lit_ne_append "Ref" "StatelessComponent" (by decide) (r ++ ".")))
      (isReactTypeMatch_false (by decide) (by decide)
        (lit_ne_append "Ref" "Element" (by decide) ("JSX" ++ ".")))
      (isReactTypeMatch_false (by decide) (by decide)
        (lit_ne_append "Ref" "ReactElement" (by decide) (r ++ ".")))
      (isReactTypeMatch_false (by decide) (by decide)
        (lit_ne_append "Ref" "SFCElement" (by decide) (r ++ ".")))
      (by simp [isReactTypeMatch])
  · subst h
    exact convert_ref_refBranch_of ("React." ++ "Ref") r targs
      (isReactTypeMatch_false (by decide) (by decide)
        (lit_ne_append ("React." ++ "Ref") "ReactText" (by decide) (r ++ ".")))
      (isReactTypeMatch_false (by decide) (by decide)
        (lit_ne_append ("React." ++ "Ref") "ReactNode" (by decide) (r ++ ".")))
      (isReactTypeMatch_false (by decide) (by decide)
        (lit_ne_append ("React." ++ "Ref") "ReactType" (by decide) (r ++ ".")))
      (isReactTypeMatch_false (by decide) (by decide)
        (lit_ne_append ("React." ++ "Ref") "ComponentType" (by decide) (r ++ ".")))
      (isReactTypeMatch_false (by decide) (by decide)
        (lit_ne_append ("React." ++ "Ref") "ComponentClass" (by decide) (r ++ ".")))
      (isReactTypeMatch_false (by decide) (by decide)
        (lit_ne_append ("React." ++ "Ref") "StatelessComponent" (by decide) (r ++ ".")))
      (isReactTypeMatch_false (by decide) (by decide)
        (lit_ne_append ("React." ++ "Ref") "Element" (by decide) ("JSX" ++ ".")))
      (isReactTypeMatch_false (by decide) (by decide)
        (lit_ne_append ("React." ++ "Ref") "ReactElement" (by decide) (r ++ ".")))
      (isReactTypeMatch_false (by decide) (by decide)
        (lit_ne_append ("React." ++ "Ref") "SFCElement" (by decide) (r ++ ".")))
      (by simp [isReactTypeMatch])
  · subst h
    exact convert_ref_refBranch_of (r ++ "." ++ "Ref") r targs
      (isReactTypeMatch_false
        (append_ne_lit "Ref" "ReactText" (by decide) (r ++ "."))
        (append_ne_lit "Ref" ("React." ++ "ReactText") (by decide) (r ++ "."))
        (append_ne_append "Ref" "ReactText" (by decide) (by decide) (r ++ ".") (r ++ ".")))
      (isReactTypeMatch_false
        (append_ne_lit "Ref" "ReactNode" (by decide) (r ++ "."))
        (append_ne_lit "Ref" ("React." ++ "ReactNode") (by decide) (r ++ "."))
        (append_ne_append "Ref" "ReactNode" (by decide) (by decide) (r ++ ".") (r ++ ".")))
      (isReactTypeMatch_false
        (append_ne_lit "Ref" "ReactType" (by decide) (r ++ "."))
        (append_ne_lit "Ref" ("React." ++ "ReactType") (by decide) (r ++ "."))
        (append_ne_append "Ref" "ReactType" (by decide) (by decide) (r ++ ".") (r ++ ".")))
      (isReactTypeMatch_false
        (append_ne_lit "Ref" "ComponentType" (by decide) (r ++ "."))
        (append_ne_lit "Ref" ("React." ++ "ComponentType") (by decide) (r ++ "."))
        (append_ne_append "Ref" "ComponentType" (by decide) (by decide) (r ++ ".") (r ++ ".")))
      (isReactTypeMatch_false
        (append_ne_lit "Ref" "ComponentClass" (by decide) (r ++ "."))
        (append_ne_lit "Ref" ("React." ++ "ComponentClass") (by decide) (r ++ "."))
        (append_ne_append "Ref" "ComponentClass" (by decide) (by decide) (r ++ ".") (r ++ ".")))
      (isReactTypeMatch_false
        (append_ne_lit "Ref" "StatelessComponent" (by decide) (r ++ "."))
        (append_ne_lit "Ref" ("React." ++ "StatelessComponent") (by decide) (r ++ "."))
        (append_ne_append "Ref" "StatelessComponent" (by decide) (by decide) (r ++ ".") (r ++ ".")))
      (isReactTypeMatch_false
        (append_ne_lit "Ref" "Element" (by decide) (r ++ "."))
        (append_ne_lit "Ref" ("React." ++ "Element") (by decide) (r ++ "."))
        (append_ne_append "Ref" "Element" (by decide) (by decide) (r ++ ".") ("JSX" ++ ".")))
      (isReactTypeMatch_false
        (append_ne_lit "Ref" "ReactElement" (by decide) (r ++ "."))
        (append_ne_lit "Ref" ("React." ++ "ReactElement") (by decide) (r ++ "."))
        (append_ne_append "Ref" "ReactElement" (by decide) (by decide) (r ++ ".") (r ++ ".")))
      (isReactTypeMatch_false
        (append_ne_lit "Ref" "SFCElement" (by decide) (r ++ "."))
        (append_ne_lit "Ref" ("React." ++ "SFCElement") (by decide) (r ++ "."))
        (append_ne_append "Ref" "SFCElement" (by decide) (by decide) (r ++ ".") (r ++ ".")))
      (by simp [isReactTypeMatch])

/-- C6 witness: the theorem applied at `React.Ref` carrying a type argument
(which the fixed union ignores). -/
theorem convert_refMatch_spec_witness :
    convert (TSType.typeReference "React.Ref" [TSType.numberKeyword]) "React"
      = some (createCall (Expr.identifier "oneOfType")
          [Expr.arrayExpression
            [createMember (Expr.identifier "string"),
             createMember (Expr.identifier "func"),
             createMember (Expr.identifier "object")]]) :=
  convert_refMatch_spec "React.Ref" "React" [TSType.numberKeyword] (by decide)
